import Mathlib

/-!
Shallow embedding of the Inventory Management System server core
(Express + Mongoose application: auth controller, auth middleware,
item controller, routes, and the two Mongoose schemas).

Conventions of the embedding:
* HTTP request fields that may be absent are `Option String` (absent = none,
  present = the raw string). JavaScript string truthiness: `undefined` and the
  empty string are falsy, every other string (including "0") is truthy.
* JavaScript numbers are modelled by `JSNum`: NaN, the two infinities, and
  finite values. Every numeric value this server computes with — ids,
  counts, pages, limits, prices, quantities — is integer-valued, and float
  arithmetic on integers of this size is exact, so finite values are carried
  as `Int`. `jsNumber` models the `Number(string)` coercion for integer
  decimal literals and "Infinity"; strings with a non-zero fractional part,
  hex or exponent syntax are outside the inputs this development evaluates
  and are mapped to NaN.
* String scanning is done on character lists (`String.data`) with structural
  recursion, mirroring the `trim` / `startsWith` / `split` calls of the code.
* MongoDB object ids and timestamps are modelled as `Nat`.
* External libraries are parameters: `bcrypt.hash` is a `String → String`
  argument, `bcrypt.compare` a `String → String → Bool` argument, `jwt.sign`
  a `Nat → String → String` argument (the payload is id and role), and
  `jwt.verify` a `String → Option TokenPayload` argument (none = throws).
* The Mongo collections are in-memory lists passed in and returned, so frame
  properties ("the store is unchanged") are equalities on the returned list.
-/

/-- A JavaScript number: NaN, an infinity, or a finite (integer) value. -/
inductive JSNum where
  | nan : JSNum
  | inf : Bool → JSNum    -- `inf true` is +Infinity, `inf false` is -Infinity
  | num : Int → JSNum
deriving DecidableEq, Repr

namespace JSNum

/-- JavaScript subtraction on numbers. -/
def sub : JSNum → JSNum → JSNum
  | num a, num b => num (a - b)
  | inf p, num _ => inf p
  | num _, inf p => inf (!p)
  | inf p, inf q => if p = q then nan else inf p
  | _, _ => nan

/-- JavaScript multiplication on numbers (0 * Infinity is NaN). -/
def mul : JSNum → JSNum → JSNum
  | num a, num b => num (a * b)
  | inf p, num b => if b = 0 then nan else inf (p = decide (0 < b))
  | num a, inf p => if a = 0 then nan else inf (p = decide (0 < a))
  | inf p, inf q => inf (p = q)
  | _, _ => nan

/-- The exact ceiling of the integer quotient a / b, via the identity
ceil (x) = -floor (-x) and integer floor division (`/` on `Int`). -/
def intCeilDiv (a b : Int) : Int :=
  if 0 < b then -((-a) / b)
  else if b < 0 then -(a / (-b))
  else 0

/-- `Math.ceil(a / b)` on JavaScript numbers: division by zero gives a
signed infinity (NaN for 0/0), and the ceiling of an exact quotient of
integers is `intCeilDiv`. -/
def ceilDiv : JSNum → JSNum → JSNum
  | num a, num b =>
      if b = 0 then (if a = 0 then nan else inf (decide (0 < a)))
      else num (intCeilDiv a b)
  | num _, inf _ => num 0
  | inf p, num b => inf (p = decide (0 ≤ b))
  | _, _ => nan

/-- The finite nonnegative values among JavaScript numbers; the values a
Mongo cursor accepts for `skip` and `limit` in this model. -/
def toNatVal : JSNum → Option Nat
  | num a => if 0 ≤ a then some a.toNat else none
  | _ => none

end JSNum

/-- Value of a decimal digit. -/
def digitVal (c : Char) : Option Nat :=
  if c.isDigit then some (c.toNat - 48) else none

/-- Reads a run of decimal digits as a natural number (none when a character
is not a digit; the empty list reads as 0, callers check emptiness). -/
def readDigits (cs : List Char) : Option Nat :=
  cs.foldl (fun acc c => do pure ((← acc) * 10 + (← digitVal c))) (some 0)

/-- Splits a character list at every occurrence of the separator, keeping
empty segments — the behavior of JavaScript `String.prototype.split` with a
single-character separator. -/
def splitChar (sep : Char) : List Char → List (List Char)
  | [] => [[]]
  | c :: cs =>
      match splitChar sep cs with
      | [] => [[]]
      | seg :: rest => if c = sep then [] :: seg :: rest else (c :: seg) :: rest

/-- Parses an unsigned integer-valued decimal literal: digits, optionally
followed by a decimal point and zeros, at least one digit overall
("12", "12.", "12.0" — a non-zero fractional part is outside the integer
fragment this model carries). -/
def readDecimal (cs : List Char) : Option Nat :=
  match splitChar '.' cs with
  | [w] => if w.isEmpty then none else readDigits w
  | [w, f] =>
      if (w.isEmpty && f.isEmpty) || !(f.all (· = '0')) then none
      else readDigits w
  | _ => none

/-- Leading and trailing whitespace removed — the `trim` of the JavaScript
`Number(string)` coercion. -/
def trimChars (cs : List Char) : List Char :=
  ((cs.dropWhile Char.isWhitespace).reverse.dropWhile Char.isWhitespace).reverse

/-- The JavaScript `Number(string)` coercion, for the string shapes this
server receives: whitespace is trimmed, the empty string is 0, an optional
sign precedes either "Infinity" or a decimal literal; anything else
(in particular any non-numeric string) is NaN. -/
def jsNumber (s : String) : JSNum :=
  match trimChars s.data with
  | [] => .num 0
  | c :: cs =>
      let (neg, body) :=
        if c = '-' then (true, cs)
        else if c = '+' then (false, cs)
        else (false, c :: cs)
      if body = "Infinity".data then .inf (!neg)
      else
        match readDecimal body with
        | some n => .num (if neg then -(n : Int) else (n : Int))
        | none => .nan

/-- JavaScript truthiness of a possibly-absent string request parameter:
`undefined` and the empty string are falsy. -/
def truthy : Option String → Bool
  | none => false
  | some s => s ≠ ""

/-- The Mongo filter document built by `getAllItems` (itemController lines
132-152): optional case-insensitive regex filters on name and category and
optional numeric bounds on price and quantity. -/
structure MongoQuery where
  nameRegex : Option String := none
  categoryRegex : Option String := none
  priceGte : Option JSNum := none
  priceLte : Option JSNum := none
  qtyGte : Option JSNum := none
  qtyLte : Option JSNum := none
deriving DecidableEq, Repr

/-- The raw query-string parameters destructured from `req.query` by
`getAllItems`. Each is absent or a raw string. -/
structure ListQuery where
  search : Option String := none
  category : Option String := none
  minPrice : Option String := none
  maxPrice : Option String := none
  maxQty : Option String := none
  minQty : Option String := none
  page : Option String := none
  limit : Option String := none
  sort : Option String := none
  order : Option String := none
deriving DecidableEq, Repr

/-- Everything `getAllItems` derives from the raw parameters before touching
the store: the filter document, the sort key and direction, the skip count,
and the numeric coercions of `page` and `limit`. -/
structure ListSpec where
  query : MongoQuery
  sortKey : String
  sortDir : Int
  skip : JSNum
  pageN : JSNum
  limitN : JSNum
deriving DecidableEq, Repr

/-- `Number(page)` after the destructuring default `page = 1`: the default is
the number 1, a present raw string is coerced with `Number`. -/
def pageNumOf (q : ListQuery) : JSNum :=
  match q.page with
  | none => .num 1
  | some s => jsNumber s

/-- `Number(limit)` after the destructuring default `limit = 10`. -/
def limitNumOf (q : ListQuery) : JSNum :=
  match q.limit with
  | none => .num 10
  | some s => jsNumber s

/-- The sort key after the destructuring default `sort = "createdAt"`: a
present value is used verbatim as the computed key of `sortOptions`. -/
def sortKeyOf (q : ListQuery) : String :=
  match q.sort with
  | none => "createdAt"
  | some s => s

/-- The order parameter after the destructuring default `order = "desc"`. -/
def orderParamOf (q : ListQuery) : String :=
  match q.order with
  | none => "desc"
  | some s => s

/-- Embedding of itemController lines 119-155: the construction of the filter
document, sort options and skip count from the raw request parameters.
`if (minPrice || maxPrice)` only guards the creation of the inner object, so
each bound is installed exactly when its own raw value is truthy. -/
def buildListSpec (q : ListQuery) : ListSpec :=
  { query :=
      { nameRegex := if truthy q.search then q.search else none
        categoryRegex := if truthy q.category then q.category else none
        priceGte := if truthy q.minPrice then (q.minPrice.map jsNumber) else none
        priceLte := if truthy q.maxPrice then (q.maxPrice.map jsNumber) else none
        qtyGte := if truthy q.minQty then (q.minQty.map jsNumber) else none
        qtyLte := if truthy q.maxQty then (q.maxQty.map jsNumber) else none }
    sortKey := sortKeyOf q
    sortDir := if orderParamOf q = "asc" then 1 else -1
    skip := JSNum.mul (JSNum.sub (pageNumOf q) (.num 1)) (limitNumOf q)
    pageN := pageNumOf q
    limitN := limitNumOf q }

/-- The allow-list of sortable fields named by the specification (name,
price, quantity, createdAt). Stated here from the spec's words, to be
compared with what `buildListSpec` actually produces. -/
def specSortAllowList : List String :=
  ["name", "price", "quantity", "createdAt"]

/-- An inventory document as described by `inventorySchema`
(models/Inventory.js): name, category, nonnegative quantity and price, a
`createdBy` reference to the creating user, and a `createdAt` timestamp from
the schema's `timestamps` option. (The `updatedAt` timestamp is set by the
store on every write and is referenced by no operation here, so it is not
carried in the model.) -/
structure InventoryRecord where
  id : Nat
  name : String
  category : String
  quantity : Int
  price : Int
  createdBy : Nat
  createdAt : Nat
deriving DecidableEq, Repr

/-- Whether the first character list occurs at the start of the second. -/
def charsPrefixOf : List Char → List Char → Bool
  | [], _ => true
  | _ :: _, [] => false
  | c :: cs, d :: ds => c = d && charsPrefixOf cs ds

/-- Whether the first character list occurs contiguously anywhere in the
second. -/
def charsInfixOf (pat : List Char) : List Char → Bool
  | [] => pat.isEmpty
  | d :: ds => charsPrefixOf pat (d :: ds) || charsInfixOf pat ds

/-- Case-insensitive substring test: the effect of the `$regex`/`$options "i"`
filters as used by this server (the client sends plain text, so the pattern
is matched as a literal substring; regex metacharacters are out of scope). -/
def regexMatchI (pat s : String) : Bool :=
  charsInfixOf (pat.data.map Char.toLower) (s.data.map Char.toLower)

/-- Whether a numeric field satisfies a `$gte` bound. A NaN bound matches no
finite value, a -Infinity bound matches every value (the store compares in
its numeric order). -/
def gteMatches (bound : Option JSNum) (v : Int) : Bool :=
  match bound with
  | none => true
  | some (.num b) => b ≤ v
  | some (.inf p) => !p
  | some .nan => false

/-- Whether a numeric field satisfies a `$lte` bound. -/
def lteMatches (bound : Option JSNum) (v : Int) : Bool :=
  match bound with
  | none => true
  | some (.num b) => v ≤ b
  | some (.inf p) => p
  | some .nan => false

/-- Whether a record matches the filter document: conjunction of the regex
filters and numeric bounds that are present. -/
def matchesQuery (mq : MongoQuery) (r : InventoryRecord) : Bool :=
  (match mq.nameRegex with | none => true | some p => regexMatchI p r.name) &&
  (match mq.categoryRegex with | none => true | some p => regexMatchI p r.category) &&
  gteMatches mq.priceGte r.price && lteMatches mq.priceLte r.price &&
  gteMatches mq.qtyGte r.quantity && lteMatches mq.qtyLte r.quantity

/-- Comparison of two records on a sort key. The sortable document fields are
name, category, price, quantity, createdAt and the ids; a key naming no
document field compares every pair as equal (the store treats documents
missing the sort field alike). -/
def fieldCmp (key : String) (a b : InventoryRecord) : Ordering :=
  if key = "name" then compare a.name b.name
  else if key = "category" then compare a.category b.category
  else if key = "price" then compare a.price b.price
  else if key = "quantity" then compare a.quantity b.quantity
  else if key = "createdAt" then compare a.createdAt b.createdAt
  else if key = "createdBy" then compare a.createdBy b.createdBy
  else if key = "_id" then compare a.id b.id
  else .eq

/-- "a may come before b" under the sort options: ascending when the
direction is 1, descending otherwise. -/
def sortLe (key : String) (dir : Int) (a b : InventoryRecord) : Bool :=
  if dir = 1 then (fieldCmp key a b) ≠ .gt else (fieldCmp key a b) ≠ .lt

/-- Insertion into a sorted list. -/
def insertSorted (le : InventoryRecord → InventoryRecord → Bool)
    (x : InventoryRecord) : List InventoryRecord → List InventoryRecord
  | [] => [x]
  | y :: ys => if le x y then x :: y :: ys else y :: insertSorted le x ys

/-- The store's sort of the matching documents under the sort options
(insertion sort; ties keep their relative order). -/
def sortRecords (key : String) (dir : Int) :
    List InventoryRecord → List InventoryRecord
  | [] => []
  | x :: xs => insertSorted (sortLe key dir) x (sortRecords key dir xs)

/-- The JSON response of `getAllItems`: on 200, the total count, the coerced
current page, `Math.ceil(total / limit)`, and the returned page of items; on
a store failure, 500 with no payload. -/
structure ListResult where
  status : Nat
  totalItems : Option Nat := none
  currentPage : Option JSNum := none
  totalPages : Option JSNum := none
  items : List InventoryRecord := []
deriving DecidableEq, Repr

/-- Embedding of `getAllItems` (itemController lines 118-174): builds the
spec from the raw parameters, then runs
`find(query).sort(sortOptions).skip(skip).limit(limit)` and
`countDocuments(query)` against the store. A skip or limit that is not a
finite nonnegative value (negative or NaN) is rejected by the store; the
`catch` turns that into a 500. `populate` only denormalizes the creator's
name and email onto the wire format and does not affect which records are
selected, so it is not modelled. -/
def getAllItems (q : ListQuery) (store : List InventoryRecord) : ListResult :=
  let spec := buildListSpec q
  match spec.skip.toNatVal, spec.limitN.toNatVal with
  | some s, some l =>
      let matched := store.filter (matchesQuery spec.query)
      { status := 200
        totalItems := some matched.length
        currentPage := some spec.pageN
        totalPages := some (JSNum.ceilDiv (.num matched.length) spec.limitN)
        items := ((sortRecords spec.sortKey spec.sortDir matched).drop s).take l }
  | _, _ => { status := 500 }

/-- The specification-side description of one page of results: sort the
matching records, drop `(page-1)*limit` of them, take `limit`, report the
total matching count and `ceil(totalItems / pageSize)` pages (stated with
the exact rational ceiling). Written from the spec's pagination contract, to
be compared with `getAllItems`. -/
def listingSpec (q : ListQuery) (store : List InventoryRecord)
    (p l : Nat) : ListResult :=
  let spec := buildListSpec q
  let matched := store.filter (matchesQuery spec.query)
  { status := 200
    totalItems := some matched.length
    currentPage := some (.num p)
    totalPages := some (.num ⌈(matched.length : ℚ) / (l : ℚ)⌉)
    items := ((sortRecords spec.sortKey spec.sortDir matched).drop ((p - 1) * l)).take l }

/-- The claims a signed token carries: `jwt.sign` is called with the user's
id and role (authController line 75), so this is what `jwt.verify` recovers
and what `req.user` holds downstream. -/
structure TokenPayload where
  id : Nat
  role : String
deriving DecidableEq, Repr

/-- Embedding of `verifyToken` (authMiddleware lines 10-28): a missing or
falsy Authorization header, one not starting with "Bearer ", or a token the
codec rejects all stop the request (the middleware responds 401); otherwise
the decoded payload becomes `req.user` and the handler runs. The token is
`authHeader.split(" ")[1]`. `jwtVerify` stands for `jwt.verify` with the
server secret: none means it throws. -/
def verifyToken (jwtVerify : String → Option TokenPayload)
    (authHeader : Option String) : Option TokenPayload :=
  match authHeader with
  | none => none
  | some h =>
      if h = "" then none
      else if !(charsPrefixOf "Bearer ".data h.data) then none
      else ((splitChar ' ' h.data).get? 1).bind (fun t => jwtVerify ⟨t⟩)

/-- A stored user document per `userSchema` (models/User.js): name, unique
email, (hashed) password, and a role constrained to "admin" or "staff" with
default "staff". -/
structure UserRec where
  id : Nat
  name : String
  email : String
  password : String
  role : String
deriving DecidableEq, Repr

/-- `User.findOne` on an email taken from the request body. Mongoose strips
keys whose value is `undefined` from a filter, so a missing email turns the
lookup into `findOne` with an empty filter, which returns the first document
of the collection (if any). -/
def findOneByEmail (users : List UserRec) (email : Option String) :
    Option UserRec :=
  match email with
  | some e => users.find? (fun u => u.email = e)
  | none => users.head?

/-- The body of a registration request: each field may be absent. -/
structure RegisterBody where
  name : Option String := none
  email : Option String := none
  password : Option String := none
  role : Option String := none
deriving DecidableEq, Repr

/-- The redacted user object returned by a successful registration:
id, name, email and role only. -/
structure RegisteredUser where
  id : Nat
  name : String
  email : String
  role : String
deriving DecidableEq, Repr

/-- Result of a registration request: the HTTP status, the user collection
after the request, and the response payload on 200. -/
structure RegisterResult where
  status : Nat
  users : List UserRec
  registered : Option RegisteredUser := none
deriving DecidableEq, Repr

/-- `User.create` validation per `userSchema`: name, email and password must
be present and non-empty (Mongoose `required` fails on a missing path and on
an empty string), and a present role must be one of the enum values "admin"
or "staff"; an absent role defaults to "staff". Returns the document to
store, or none for a `ValidationError`. -/
def createUser (newId : Nat) (name email : Option String) (hashed : String)
    (role : Option String) : Option UserRec :=
  match name with
  | none => none
  | some n =>
      match email with
      | none => none
      | some e =>
          if n = "" ∨ e = "" ∨ hashed = "" then none
          else
            match role with
            | none => some ⟨newId, n, e, hashed, "staff"⟩
            | some r =>
                if r = "admin" ∨ r = "staff" then some ⟨newId, n, e, hashed, r⟩
                else none

/-- Embedding of `registerUser` (authController lines 30-58): duplicate
email gives 400 and no write; then `bcrypt.hash(password, 10)` runs — with a
missing password bcrypt throws, caught as 500; then `User.create` — a
validation failure is caught as 500; on success 200 with the redacted user.
`hash` stands for `bcrypt.hash` at cost 10; `newId` is the id the store
assigns to the new document. -/
def registerUser (hash : String → String) (newId : Nat)
    (body : RegisterBody) (users : List UserRec) : RegisterResult :=
  match findOneByEmail users body.email with
  | some _ => { status := 400, users := users }
  | none =>
      match body.password with
      | none => { status := 500, users := users }
      | some pw =>
          let hashed := hash pw
          match createUser newId body.name body.email hashed body.role with
          | none => { status := 500, users := users }
          | some u =>
              { status := 200
                users := users ++ [u]
                registered := some ⟨u.id, u.name, u.email, u.role⟩ }

/-- The route `router.post("/register", registerUser)` (authRoutes line 10):
the middleware chain holds only the controller — no `verifyToken`, so the
Authorization header is never consulted. -/
def registerRoute (hash : String → String) (newId : Nat)
    (_authHeader : Option String) (body : RegisterBody)
    (users : List UserRec) : RegisterResult :=
  registerUser hash newId body users

/-- The body of a login request. -/
structure LoginBody where
  email : Option String := none
  password : Option String := none
deriving DecidableEq, Repr

/-- The redacted user object returned by a successful login: id, name and
role only — the structure has no password field, so no stored hash can
appear in it. -/
structure LoginUser where
  id : Nat
  name : String
  role : String
deriving DecidableEq, Repr

/-- Result of a login request: status, optional token and redacted user. -/
structure LoginResult where
  status : Nat
  token : Option String := none
  user : Option LoginUser := none
deriving DecidableEq, Repr

/-- Embedding of `loginUser` (authController lines 61-86): unknown email is
404; then `bcrypt.compare` — a missing password makes bcrypt throw, caught
as 500 — and a mismatch is 401; on success `jwt.sign` issues a token over
the id and role, returned with the redacted user. `compare` stands for
`bcrypt.compare`, `sign` for `jwt.sign` with the server secret. -/
def loginUser (compare : String → String → Bool)
    (sign : Nat → String → String) (body : LoginBody)
    (users : List UserRec) : LoginResult :=
  match findOneByEmail users body.email with
  | none => { status := 404 }
  | some u =>
      match body.password with
      | none => { status := 500 }
      | some pw =>
          if compare pw u.password then
            { status := 200
              token := some (sign u.id u.role)
              user := some ⟨u.id, u.name, u.role⟩ }
          else { status := 401 }

/-- A JSON body for the item mutations. `createItem` destructures name,
category, quantity and price; `findByIdAndUpdate` receives the whole body,
whose recognized paths are the five schema fields (Mongoose strict mode
drops keys outside the schema). Numeric values are carried post-cast. -/
structure ItemBody where
  name : Option String := none
  category : Option String := none
  quantity : Option Int := none
  price : Option Int := none
  createdBy : Option Nat := none
deriving DecidableEq, Repr

/-- Result of an item mutation: status, the store after the request, and the
response item on 200. -/
structure ItemResult where
  status : Nat
  store : List InventoryRecord
  item : Option InventoryRecord := none
deriving DecidableEq, Repr

/-- `inventorySchema` validation for a new document (models/Inventory.js):
name, category, quantity, price and createdBy are required (an empty string
fails `required` for the string paths) and quantity and price must be
nonnegative. Returns the stored document or none for a `ValidationError`. -/
def saveNewItem (newId : Nat) (now : Nat) (name category : Option String)
    (quantity price : Option Int) (createdBy : Nat) :
    Option InventoryRecord :=
  match name, category, quantity, price with
  | some n, some c, some qty, some pr =>
      if n = "" ∨ c = "" ∨ qty < 0 ∨ pr < 0 then none
      else some ⟨newId, n, c, qty, pr, createdBy, now⟩
  | _, _, _, _ => none

/-- Embedding of `createItem` (itemController lines 91-115): the role check
runs first and a non-admin caller gets 403 before the store is touched; then
the document is built from the destructured body with `createdBy` forced to
the caller's id, and `save` either persists it (200) or fails validation
(caught as 500). `user` is `req.user`, the decoded token payload. -/
def createItem (user : TokenPayload) (newId now : Nat) (body : ItemBody)
    (store : List InventoryRecord) : ItemResult :=
  if user.role ≠ "admin" then { status := 403, store := store }
  else
    match saveNewItem newId now body.name body.category body.quantity
        body.price user.id with
    | none => { status := 500, store := store }
    | some r => { status := 200, store := store ++ [r], item := some r }

/-- `findById` on the inventory collection. -/
def findById (store : List InventoryRecord) (id : Nat) :
    Option InventoryRecord :=
  store.find? (fun r => r.id = id)

/-- The `$set` effect of `findByIdAndUpdate(id, req.body)`: every schema
field present in the body overwrites the stored field — there is no
allow-list, so name, category, quantity, price and createdBy are all
writable; absent fields are untouched. -/
def applyUpdate (body : ItemBody) (r : InventoryRecord) : InventoryRecord :=
  { r with
    name := body.name.getD r.name
    category := body.category.getD r.category
    quantity := body.quantity.getD r.quantity
    price := body.price.getD r.price
    createdBy := body.createdBy.getD r.createdBy }

/-- `runValidators` on the updated paths: a string path being set must be
non-empty (`required`), a numeric path being set must be nonnegative. -/
def updateValid (body : ItemBody) : Bool :=
  (match body.name with | none => true | some n => n ≠ "") &&
  (match body.category with | none => true | some c => c ≠ "") &&
  (match body.quantity with | none => true | some q => decide (0 ≤ q)) &&
  (match body.price with | none => true | some p => decide (0 ≤ p))

/-- Replaces the document with the given id by its updated version. -/
def replaceById (store : List InventoryRecord) (id : Nat)
    (r : InventoryRecord) : List InventoryRecord :=
  store.map (fun x => if x.id = id then r else x)

/-- Embedding of `updateItem` (itemController lines 177-201): the role check
runs first and a non-admin caller gets 403 before the store is touched;
`findByIdAndUpdate` with `new` and `runValidators` then returns 404 when the
id names no document, 500 (caught validation error) when an updated path is
invalid, and otherwise 200 with the updated document. -/
def updateItem (user : TokenPayload) (id : Nat) (body : ItemBody)
    (store : List InventoryRecord) : ItemResult :=
  if user.role ≠ "admin" then { status := 403, store := store }
  else
    match findById store id with
    | none => { status := 404, store := store }
    | some r =>
        if updateValid body then
          let r2 := applyUpdate body r
          { status := 200, store := replaceById store id r2, item := some r2 }
        else { status := 500, store := store }

/-- Embedding of `deleteItem` (itemController lines 204-223): the role check
runs first and a non-admin caller gets 403 before the store is touched;
`findByIdAndDelete` returns 404 when the id names no document and otherwise
removes it (200). -/
def deleteItem (user : TokenPayload) (id : Nat)
    (store : List InventoryRecord) : ItemResult :=
  if user.role ≠ "admin" then { status := 403, store := store }
  else
    match findById store id with
    | none => { status := 404, store := store }
    | some _ =>
        { status := 200, store := store.filter (fun r => r.id ≠ id) }

/-- The route `router.post("/", verifyToken, createItem)` (itemRoutes line
27): the guard runs first; a failed guard responds 401 and the controller
never runs. -/
def createRoute (jwtVerify : String → Option TokenPayload)
    (authHeader : Option String) (newId now : Nat) (body : ItemBody)
    (store : List InventoryRecord) : ItemResult :=
  match verifyToken jwtVerify authHeader with
  | none => { status := 401, store := store }
  | some user => createItem user newId now body store

/-- The route `router.put("/:id", verifyToken, updateItem)` (itemRoutes
line 29). -/
def updateRoute (jwtVerify : String → Option TokenPayload)
    (authHeader : Option String) (id : Nat) (body : ItemBody)
    (store : List InventoryRecord) : ItemResult :=
  match verifyToken jwtVerify authHeader with
  | none => { status := 401, store := store }
  | some user => updateItem user id body store

/-- The route `router.delete("/:id", verifyToken, deleteItem)` (itemRoutes
line 30). -/
def deleteRoute (jwtVerify : String → Option TokenPayload)
    (authHeader : Option String) (id : Nat)
    (store : List InventoryRecord) : ItemResult :=
  match verifyToken jwtVerify authHeader with
  | none => { status := 401, store := store }
  | some user => deleteItem user id store

/-! Concrete stand-ins for the external collaborators, used to instantiate
witnesses on closed inputs. -/

/-- A concrete stand-in for `bcrypt.hash` at cost 10. -/
def hashDemo (pw : String) : String := "hashed:" ++ pw

/-- A concrete stand-in for `bcrypt.compare`, matching `hashDemo`. -/
def compareDemo (pw stored : String) : Bool := ("hashed:" ++ pw) = stored

/-- A concrete stand-in for `jwt.sign` over the id and role. -/
def signDemo (id : Nat) (role : String) : String :=
  String.mk (List.replicate id 't') ++ role

/-- A concrete token codec for `jwt.verify`: two known good tokens, one for
a staff principal and one for an admin principal. -/
def verifyDemo (t : String) : Option TokenPayload :=
  if t = "staff-token" then some ⟨7, "staff"⟩
  else if t = "admin-token" then some ⟨1, "admin"⟩
  else none

/-- A one-admin user collection for login witnesses. -/
def usersDemo : List UserRec :=
  [⟨1, "Alice", "alice@example.com", "hashed:pw", "admin"⟩]

/-- C1 counterexample: a POST /auth/register request carrying no bearer
token at all is not rejected with 401/403 — it succeeds with 200 and a
Credential Record is created, because the register route mounts no
Authorization Guard. This refutes the claim that every registration
request requires an admin bearer token before any record is created. -/
theorem registerRoute_no_token_creates_record :
    (registerRoute hashDemo 1 none
        { name := some "Alice", email := some "alice@example.com",
          password := some "pw" } []).status = 200 ∧
    (registerRoute hashDemo 1 none
        { name := some "Alice", email := some "alice@example.com",
          password := some "pw" } []).users.length = 1 := by
  exact ⟨rfl, rfl⟩

/-- C1 (amended): the register route applies no Authorization Guard — its
middleware chain is the controller alone, the request's Authorization
header is never consulted, and the route never answers 401 or 403; the only
server-side gating is the duplicate-email and store-validation logic inside
`registerUser` itself. -/
theorem registerRoute_has_no_guard (hash : String → String) (newId : Nat)
    (header : Option String) (body : RegisterBody) (users : List UserRec) :
    registerRoute hash newId header body users
      = registerUser hash newId body users ∧
    (registerRoute hash newId header body users).status ≠ 401 ∧
    (registerRoute hash newId header body users).status ≠ 403 := by
  refine ⟨rfl, ?_, ?_⟩ <;>
  · show (registerUser hash newId body users).status ≠ _
    unfold registerUser
    cases h1 : findOneByEmail users body.email <;> simp
    cases h2 : body.password <;> simp
    cases h3 : createUser newId body.name body.email (hash _) body.role <;>
      simp [h3]

/-- C9 counterexample: a registration request missing the required `name`
field is answered 500, not 400 — `registerUser` has no explicit field
validation, so the store-layer `ValidationError` falls into the catch-all
500 branch. (No record is created, matching that half of the claim.) -/
theorem registerUser_missing_name_is_500 :
    (registerUser hashDemo 1
        { email := some "bob@example.com", password := some "pw" } []).status = 500 ∧
    (registerUser hashDemo 1
        { email := some "bob@example.com", password := some "pw" } []).status ≠ 400 ∧
    (registerUser hashDemo 1
        { email := some "bob@example.com", password := some "pw" } []).users = [] := by
  exact ⟨rfl, by decide, rfl⟩

/-- C9 (amended): `registerUser` performs no explicit validation of the
required fields; a request missing `name` or `password` (with a
non-duplicate email) fails with 500 — the store validation error or the
hash failure caught by the catch-all — rather than a 400 ValidationError,
and no Credential Record is created. -/
theorem registerUser_missing_field_is_500 (hash : String → String)
    (newId : Nat) (body : RegisterBody) (users : List UserRec)
    (hfind : findOneByEmail users body.email = none)
    (hmiss : body.name = none ∨ body.password = none) :
    (registerUser hash newId body users).status = 500 ∧
    (registerUser hash newId body users).users = users := by
  unfold registerUser
  rw [hfind]
  rcases hmiss with h | h
  · rcases hpw : body.password with _ | pw
    · exact ⟨rfl, rfl⟩
    · simp [createUser, h]
  · rw [h]
    exact ⟨rfl, rfl⟩

/-- C9 witness: the amended theorem at a concrete input (empty store, body
with email and password but no name). -/
theorem registerUser_missing_field_is_500_witness :
    (findOneByEmail [] (some "bob@example.com") = none ∧
      ((none : Option String) = none ∨ (some "pw" : Option String) = none)) ∧
    (registerUser hashDemo 1
        { email := some "bob@example.com", password := some "pw" } []).status = 500 ∧
    (registerUser hashDemo 1
        { email := some "bob@example.com", password := some "pw" } []).users = [] :=
  ⟨⟨rfl, Or.inl rfl⟩,
    registerUser_missing_field_is_500 hashDemo 1 _ _ rfl (Or.inl rfl)⟩

/-- C7: login with an unknown email is 404; with a known email and a
password failing the bcrypt comparison it is 401; on success it returns the
signed token together with the redacted user — exactly id, name and role
(the `LoginUser` payload has no password field, so the stored hash cannot
appear in any login response). -/
theorem loginUser_spec (compare : String → String → Bool)
    (sign : Nat → String → String) (e pw : String) (users : List UserRec) :
    (findOneByEmail users (some e) = none →
      loginUser compare sign { email := some e, password := some pw } users
        = { status := 404 }) ∧
    (∀ u, findOneByEmail users (some e) = some u →
      compare pw u.password = false →
      loginUser compare sign { email := some e, password := some pw } users
        = { status := 401 }) ∧
    (∀ u, findOneByEmail users (some e) = some u →
      compare pw u.password = true →
      loginUser compare sign { email := some e, password := some pw } users
        = { status := 200, token := some (sign u.id u.role),
            user := some ⟨u.id, u.name, u.role⟩ }) := by
  refine ⟨?_, ?_, ?_⟩
  · intro h
    simp [loginUser, h]
  · intro u h hc
    simp [loginUser, h, hc]
  · intro u h hc
    simp [loginUser, h, hc]

/-- C7 witness: the three branches of `loginUser_spec` on a concrete
one-user store. -/
theorem loginUser_spec_witness :
    (findOneByEmail usersDemo (some "nobody@example.com") = none ∧
      loginUser compareDemo signDemo
        { email := some "nobody@example.com", password := some "pw" } usersDemo
        = { status := 404 }) ∧
    (findOneByEmail usersDemo (some "alice@example.com")
        = some ⟨1, "Alice", "alice@example.com", "hashed:pw", "admin"⟩ ∧
      compareDemo "wrong" "hashed:pw" = false ∧
      loginUser compareDemo signDemo
        { email := some "alice@example.com", password := some "wrong" } usersDemo
        = { status := 401 }) ∧
    (compareDemo "pw" "hashed:pw" = true ∧
      loginUser compareDemo signDemo
        { email := some "alice@example.com", password := some "pw" } usersDemo
        = { status := 200, token := some (signDemo 1 "admin"),
            user := some ⟨1, "Alice", "admin"⟩ }) :=
  ⟨⟨by decide,
      (loginUser_spec compareDemo signDemo "nobody@example.com" "pw" usersDemo).1
        (by decide)⟩,
    ⟨by decide, by decide,
      (loginUser_spec compareDemo signDemo "alice@example.com" "wrong" usersDemo).2.1
        ⟨1, "Alice", "alice@example.com", "hashed:pw", "admin"⟩ (by decide) (by decide)⟩,
    ⟨by decide,
      (loginUser_spec compareDemo signDemo "alice@example.com" "pw" usersDemo).2.2
        ⟨1, "Alice", "alice@example.com", "hashed:pw", "admin"⟩ (by decide) (by decide)⟩⟩

/-- A staff principal (decoded token payload) for witnesses. -/
def staffUser : TokenPayload := ⟨7, "staff"⟩

/-- An admin principal (decoded token payload) for witnesses. -/
def adminUser : TokenPayload := ⟨1, "admin"⟩

/-- A concrete inventory document for witnesses. -/
def itemDemo : InventoryRecord := ⟨5, "Widget", "Tools", 3, 10, 1, 100⟩

/-- C6: each mutation handler individually re-checks the caller's role
before touching the store: for any principal whose role is not "admin",
create, update and delete all answer 403 and return the store unchanged. -/
theorem mutations_require_admin (user : TokenPayload) (newId now id : Nat)
    (body : ItemBody) (store : List InventoryRecord)
    (h : user.role ≠ "admin") :
    createItem user newId now body store = { status := 403, store := store } ∧
    updateItem user id body store = { status := 403, store := store } ∧
    deleteItem user id store = { status := 403, store := store } := by
  refine ⟨?_, ?_, ?_⟩ <;> simp [createItem, updateItem, deleteItem, h]

/-- C6 witness: a staff principal is refused by all three mutations and the
one-item store is left as it was (in particular the delete leaves the item
present). -/
theorem mutations_require_admin_witness :
    staffUser.role ≠ "admin" ∧
    createItem staffUser 9 200 { name := some "X" } [itemDemo]
      = { status := 403, store := [itemDemo] } ∧
    updateItem staffUser 5 { price := some 1 } [itemDemo]
      = { status := 403, store := [itemDemo] } ∧
    deleteItem staffUser 5 [itemDemo]
      = { status := 403, store := [itemDemo] } :=
  ⟨by decide,
    (mutations_require_admin staffUser 9 200 5 { name := some "X" } [itemDemo]
      (by decide)).1,
    (mutations_require_admin staffUser 9 200 5 { price := some 1 } [itemDemo]
      (by decide)).2.1,
    (mutations_require_admin staffUser 9 200 5 { } [itemDemo]
      (by decide)).2.2⟩

/-- C5: on the guarded item routes the authentication check runs before the
role check. When `verifyToken` rejects the request (missing or invalid
token) the response is 401 and the handler never runs (the store is
unchanged) — regardless of what role the token would have carried, so 401
takes precedence over 403; when the token decodes to a non-admin principal
the response is 403 with the store unchanged. -/
theorem auth_runs_before_role (jwtVerify : String → Option TokenPayload)
    (header : Option String) (newId now id : Nat) (body : ItemBody)
    (store : List InventoryRecord) :
    (verifyToken jwtVerify header = none →
      createRoute jwtVerify header newId now body store
        = { status := 401, store := store } ∧
      updateRoute jwtVerify header id body store
        = { status := 401, store := store } ∧
      deleteRoute jwtVerify header id store
        = { status := 401, store := store }) ∧
    (∀ p, verifyToken jwtVerify header = some p → p.role ≠ "admin" →
      createRoute jwtVerify header newId now body store
        = { status := 403, store := store } ∧
      updateRoute jwtVerify header id body store
        = { status := 403, store := store } ∧
      deleteRoute jwtVerify header id store
        = { status := 403, store := store }) := by
  constructor
  · intro h
    refine ⟨?_, ?_, ?_⟩ <;> simp [createRoute, updateRoute, deleteRoute, h]
  · intro p hp hr
    refine ⟨?_, ?_, ?_⟩ <;>
      simp [createRoute, updateRoute, deleteRoute, hp,
        createItem, updateItem, deleteItem, hr]

/-- C5 witness: with a concrete codec, a request with no token gets 401 on
the admin-only delete and create routes (not 403), and a request with a
valid staff token gets 403; the store is untouched in both cases. -/
theorem auth_runs_before_role_witness :
    (verifyToken verifyDemo none = none ∧
      deleteRoute verifyDemo none 5 [itemDemo]
        = { status := 401, store := [itemDemo] } ∧
      createRoute verifyDemo none 9 200 { } [itemDemo]
        = { status := 401, store := [itemDemo] }) ∧
    (verifyToken verifyDemo (some "Bearer staff-token") = some ⟨7, "staff"⟩ ∧
      deleteRoute verifyDemo (some "Bearer staff-token") 5 [itemDemo]
        = { status := 403, store := [itemDemo] } ∧
      createRoute verifyDemo (some "Bearer staff-token") 9 200 { } [itemDemo]
        = { status := 403, store := [itemDemo] }) :=
  ⟨⟨rfl,
      ((auth_runs_before_role verifyDemo none 9 200 5 { } [itemDemo]).1 rfl).2.2,
      ((auth_runs_before_role verifyDemo none 9 200 5 { } [itemDemo]).1 rfl).1⟩,
    ⟨by decide,
      ((auth_runs_before_role verifyDemo (some "Bearer staff-token") 9 200 5 { }
          [itemDemo]).2 ⟨7, "staff"⟩ (by decide) (by decide)).2.2,
      ((auth_runs_before_role verifyDemo (some "Bearer staff-token") 9 200 5 { }
          [itemDemo]).2 ⟨7, "staff"⟩ (by decide) (by decide)).1⟩⟩

/-- The full-body update used in the C10 witness: every schema field
present, including a new creator reference. -/
def updBody : ItemBody :=
  { name := some "Gadget", category := some "Toys", quantity := some 4,
    price := some 20, createdBy := some 9 }

/-- C10: `updateItem` forwards the whole request body to the store with no
field allow-list: for an admin caller, when the id resolves and the updated
paths validate, the stored document becomes `applyUpdate body r`, in which
every schema field present in the body — name, category, quantity, price
and also createdBy — has overwritten the stored value. -/
theorem updateItem_body_passthrough (user : TokenPayload) (id : Nat)
    (body : ItemBody) (store : List InventoryRecord) (r : InventoryRecord)
    (hadmin : user.role = "admin")
    (hfind : findById store id = some r)
    (hvalid : updateValid body = true) :
    updateItem user id body store
      = { status := 200, store := replaceById store id (applyUpdate body r),
          item := some (applyUpdate body r) } ∧
    (∀ v, body.createdBy = some v → (applyUpdate body r).createdBy = v) ∧
    (∀ n, body.name = some n → (applyUpdate body r).name = n) ∧
    (∀ c, body.category = some c → (applyUpdate body r).category = c) ∧
    (∀ qv, body.quantity = some qv → (applyUpdate body r).quantity = qv) ∧
    (∀ pv, body.price = some pv → (applyUpdate body r).price = pv) := by
  refine ⟨?_, ?_, ?_, ?_, ?_, ?_⟩
  · simp [updateItem, hadmin, hfind, hvalid]
  all_goals intro x hx
  all_goals simp [applyUpdate, hx]

/-- C10 witness: an admin update whose body sets all five schema fields —
createdBy included — rewrites the stored document wholesale; in particular
the creator reference becomes the body's value 9. -/
theorem updateItem_body_passthrough_witness :
    (adminUser.role = "admin" ∧ findById [itemDemo] 5 = some itemDemo ∧
      updateValid updBody = true) ∧
    updateItem adminUser 5 updBody [itemDemo]
      = { status := 200, store := [⟨5, "Gadget", "Toys", 4, 20, 9, 100⟩],
          item := some ⟨5, "Gadget", "Toys", 4, 20, 9, 100⟩ } ∧
    (applyUpdate updBody itemDemo).createdBy = 9 := by
  have h := updateItem_body_passthrough adminUser 5 updBody [itemDemo] itemDemo
    rfl (by decide) (by decide)
  exact ⟨⟨rfl, by decide, by decide⟩, by rw [h.1]; decide, h.2.1 9 rfl⟩

/-- C2 counterexample: the raw sort parameter "__proto__" is used verbatim
as the sort key of the store query — it is outside the specification's
allow-list and is not defaulted to createdAt, refuting the claim that the
sort field always belongs to the allow-list. -/
theorem sortKey_outside_allowList :
    (buildListSpec { sort := some "__proto__" }).sortKey = "__proto__" ∧
    ¬ (buildListSpec { sort := some "__proto__" }).sortKey ∈ specSortAllowList ∧
    (buildListSpec { sort := some "__proto__" }).sortKey ≠ "createdAt" := by
  decide

/-- C2 (amended): there is no allow-list — any present raw sort value is
passed through verbatim as the sort key of the store query, and only an
absent sort parameter defaults to createdAt. -/
theorem sortKey_passthrough (q : ListQuery) :
    (∀ s, q.sort = some s → (buildListSpec q).sortKey = s) ∧
    (q.sort = none → (buildListSpec q).sortKey = "createdAt") := by
  constructor
  · intro s h
    simp [buildListSpec, sortKeyOf, h]
  · intro h
    simp [buildListSpec, sortKeyOf, h]

/-- C2 witness: the amended theorem at concrete inputs. -/
theorem sortKey_passthrough_witness :
    (buildListSpec { sort := some "price" }).sortKey = "price" ∧
    (buildListSpec ({} : ListQuery)).sortKey = "createdAt" :=
  ⟨(sortKey_passthrough { sort := some "price" }).1 "price" rfl,
    (sortKey_passthrough {}).2 rfl⟩

/-- C3 counterexample: there is no clamping — the raw page "0" yields page
number 0 (below the claimed lower bound of 1), and the raw limit "1000000"
yields a page size of 1000000 (no upper bound such as 100 is applied). -/
theorem page_limit_not_clamped :
    (buildListSpec { page := some "0" }).pageN = .num 0 ∧
    (buildListSpec { page := some "0" }).pageN ≠ .num 1 ∧
    (buildListSpec { limit := some "1000000" }).limitN = .num 1000000 := by
  decide

/-- C3 (amended): building the query specification is a total function
(never throws) and the defaults apply only to absent parameters — an absent
page gives page 1 and an absent limit gives size 10 — but a present raw
value is used as `Number(value)` verbatim, with no lower clamp on the page
and no upper clamp on the size. -/
theorem page_limit_passthrough (q : ListQuery) :
    (q.page = none → (buildListSpec q).pageN = .num 1) ∧
    (q.limit = none → (buildListSpec q).limitN = .num 10) ∧
    (∀ s, q.page = some s → (buildListSpec q).pageN = jsNumber s) ∧
    (∀ s, q.limit = some s → (buildListSpec q).limitN = jsNumber s) := by
  refine ⟨?_, ?_, ?_, ?_⟩
  · intro h
    simp [buildListSpec, pageNumOf, h]
  · intro h
    simp [buildListSpec, limitNumOf, h]
  · intro s h
    simp [buildListSpec, pageNumOf, h]
  · intro s h
    simp [buildListSpec, limitNumOf, h]

/-- C3 witness: the amended theorem at concrete inputs — defaults for the
empty parameter map, verbatim coercions for page "0" and limit "1000000". -/
theorem page_limit_passthrough_witness :
    (buildListSpec ({} : ListQuery)).pageN = .num 1 ∧
    (buildListSpec ({} : ListQuery)).limitN = .num 10 ∧
    (buildListSpec { page := some "0" }).pageN = jsNumber "0" ∧
    (buildListSpec { limit := some "1000000" }).limitN = jsNumber "1000000" ∧
    jsNumber "0" = .num 0 ∧
    jsNumber "1000000" = .num 1000000 :=
  ⟨(page_limit_passthrough {}).1 rfl,
    (page_limit_passthrough {}).2.1 rfl,
    (page_limit_passthrough { page := some "0" }).2.2.1 "0" rfl,
    (page_limit_passthrough { limit := some "1000000" }).2.2.2 "1000000" rfl,
    by decide, by decide⟩

/-- C4 counterexample: the malformed filter value "abc" is not dropped — it
is installed as a NaN bound in the store query, so the query differs from
the one built with the filter omitted, refuting the claim that a
non-numeric range filter imposes no constraint. -/
theorem malformed_filter_not_dropped :
    (buildListSpec { minPrice := some "abc" }).query.priceGte = some .nan ∧
    (buildListSpec { minPrice := some "abc" }).query
      ≠ (buildListSpec ({} : ListQuery)).query := by
  decide

/-- C4 (amended): only falsy range-filter values (absent or the empty
string) are dropped; any truthy raw value — including non-numeric strings,
which coerce to NaN, and negative numbers, which are not rejected — is
installed as a `Number(value)` bound in the store query. -/
theorem range_filter_coercion (q : ListQuery) :
    ((q.minPrice = none ∨ q.minPrice = some "") →
      (buildListSpec q).query.priceGte = none) ∧
    (∀ s, q.minPrice = some s → s ≠ "" →
      (buildListSpec q).query.priceGte = some (jsNumber s)) ∧
    ((q.maxPrice = none ∨ q.maxPrice = some "") →
      (buildListSpec q).query.priceLte = none) ∧
    (∀ s, q.maxPrice = some s → s ≠ "" →
      (buildListSpec q).query.priceLte = some (jsNumber s)) ∧
    ((q.minQty = none ∨ q.minQty = some "") →
      (buildListSpec q).query.qtyGte = none) ∧
    (∀ s, q.minQty = some s → s ≠ "" →
      (buildListSpec q).query.qtyGte = some (jsNumber s)) ∧
    ((q.maxQty = none ∨ q.maxQty = some "") →
      (buildListSpec q).query.qtyLte = none) ∧
    (∀ s, q.maxQty = some s → s ≠ "" →
      (buildListSpec q).query.qtyLte = some (jsNumber s)) := by
  refine ⟨?_, ?_, ?_, ?_, ?_, ?_, ?_, ?_⟩ <;>
    first
      | (rintro (h | h) <;> simp [buildListSpec, truthy, h])
      | (intro s h hs; simp [buildListSpec, truthy, h, hs])

/-- C4 witness: the amended theorem at concrete inputs — "abc" becomes a
NaN lower price bound, "-5" becomes a negative quantity bound, the empty
string and an absent parameter are dropped. -/
theorem range_filter_coercion_witness :
    (buildListSpec { minPrice := some "abc" }).query.priceGte
      = some (jsNumber "abc") ∧
    jsNumber "abc" = .nan ∧
    (buildListSpec { maxPrice := some "" }).query.priceLte = none ∧
    (buildListSpec { minQty := some "-5" }).query.qtyGte
      = some (jsNumber "-5") ∧
    jsNumber "-5" = .num (-5) ∧
    (buildListSpec ({} : ListQuery)).query.qtyLte = none :=
  ⟨(range_filter_coercion { minPrice := some "abc" }).2.1 "abc" rfl (by decide),
    by decide,
    (range_filter_coercion { maxPrice := some "" }).2.2.1 (Or.inr rfl),
    (range_filter_coercion { minQty := some "-5" }).2.2.2.2.2.1 "-5" rfl
      (by decide),
    by decide,
    (range_filter_coercion {}).2.2.2.2.2.2.1 (Or.inl rfl)⟩

/-- The integer ceiling division agrees with the ceiling of the exact
rational quotient (positive divisor). -/
lemma intCeilDiv_natCast_eq_ceil (t l : Nat) (hl : 0 < l) :
    JSNum.intCeilDiv (t : Int) (l : Int) = ⌈(t : ℚ) / (l : ℚ)⌉ := by
  unfold JSNum.intCeilDiv
  rw [if_pos (by exact_mod_cast hl)]
  rw [show ⌈(t : ℚ) / (l : ℚ)⌉ = -⌊-((t : ℚ) / (l : ℚ))⌋ by rw [Int.floor_neg]; ring]
  rw [show -((t : ℚ) / (l : ℚ)) = ((-(t : Int) : Int) : ℚ) / ((l : Nat) : ℚ) by
    push_cast; ring]
  rw [Rat.floor_intCast_div_natCast]

/-- `Math.ceil` of a count divided by a positive integer limit is the exact
rational ceiling. -/
lemma ceilDiv_natCast (t l : Nat) (hl : 1 ≤ l) :
    JSNum.ceilDiv (.num (t : Int)) (.num (l : Int))
      = .num ⌈(t : ℚ) / (l : ℚ)⌉ := by
  show (if (l : Int) = 0 then _ else JSNum.num (JSNum.intCeilDiv t l)) = _
  rw [if_neg (by exact_mod_cast Nat.pos_iff_ne_zero.mp hl)]
  rw [intCeilDiv_natCast_eq_ceil t l hl]

/-- C8: whenever the coerced page and limit are positive integers p and l,
`getAllItems` returns exactly the page described by the pagination
contract: the matching records are sorted, `(p-1)*l` of them are skipped
and `l` taken, the total matching count is reported ignoring pagination,
and totalPages is the rational ceiling of total/l. In particular, on 12
matching records with l = 5, page 1 has 5 items with totalPages 3, page 3
has 2 items, and page 4 has 0 items with status 200 (no error) — see the
witness. -/
theorem getAllItems_pagination (q : ListQuery) (store : List InventoryRecord)
    (p l : Nat)
    (hp : (buildListSpec q).pageN = .num p)
    (hl : (buildListSpec q).limitN = .num l)
    (hp1 : 1 ≤ p) (hl1 : 1 ≤ l) :
    getAllItems q store = listingSpec q store p l := by
  have hskip : (buildListSpec q).skip = JSNum.num (((p - 1) * l : Nat) : Int) := by
    show JSNum.mul (JSNum.sub (pageNumOf q) (.num 1)) (limitNumOf q) = _
    rw [show pageNumOf q = JSNum.num (p : Int) from hp,
      show limitNumOf q = JSNum.num (l : Int) from hl]
    show JSNum.num (((p : Int) - 1) * (l : Int)) = _
    congr 1
    rw [Nat.cast_mul, Nat.cast_sub hp1, Nat.cast_one]
  have hsVal : (buildListSpec q).skip.toNatVal = some ((p - 1) * l) := by
    rw [hskip]
    simp only [JSNum.toNatVal]
    rw [if_pos (Int.natCast_nonneg _), Int.toNat_natCast]
  have hlVal : (buildListSpec q).limitN.toNatVal = some l := by
    rw [hl]
    simp only [JSNum.toNatVal]
    rw [if_pos (Int.natCast_nonneg _), Int.toNat_natCast]
  unfold getAllItems listingSpec
  simp only [hsVal, hlVal]
  simp only [hp, hl]
  rw [ceilDiv_natCast _ l hl1]

/-- A store of 12 matching inventory records (ids and createdAt 0..11) for
the pagination witness. -/
def demoStore : List InventoryRecord :=
  (List.range 12).map (fun i => ⟨i, "item", "cat", 1, 2, 0, i⟩)

/-- The raw parameter map "page p, limit 5" of the pagination scenario. -/
def pagedQuery (p : String) : ListQuery :=
  { page := some p, limit := some "5" }

/-- C8 witness: the pagination theorem at the concrete scenario — 12
records, limit 5: page 1 returns 5 items and totalPages 3, page 3 returns
2, page 4 returns 0 with status 200 and the full count still reported. -/
theorem getAllItems_pagination_witness :
    ((buildListSpec (pagedQuery "1")).pageN = .num 1 ∧
      (buildListSpec (pagedQuery "1")).limitN = .num 5) ∧
    getAllItems (pagedQuery "1") demoStore
      = listingSpec (pagedQuery "1") demoStore 1 5 ∧
    getAllItems (pagedQuery "3") demoStore
      = listingSpec (pagedQuery "3") demoStore 3 5 ∧
    getAllItems (pagedQuery "4") demoStore
      = listingSpec (pagedQuery "4") demoStore 4 5 ∧
    (getAllItems (pagedQuery "1") demoStore).items.length = 5 ∧
    (getAllItems (pagedQuery "1") demoStore).totalPages = some (.num 3) ∧
    (getAllItems (pagedQuery "3") demoStore).items.length = 2 ∧
    (getAllItems (pagedQuery "4") demoStore).items.length = 0 ∧
    (getAllItems (pagedQuery "4") demoStore).status = 200 ∧
    (getAllItems (pagedQuery "4") demoStore).totalItems = some 12 :=
  ⟨⟨by decide, by decide⟩,
    getAllItems_pagination (pagedQuery "1") demoStore 1 5 (by decide) (by decide)
      (by decide) (by decide),
    getAllItems_pagination (pagedQuery "3") demoStore 3 5 (by decide) (by decide)
      (by decide) (by decide),
    getAllItems_pagination (pagedQuery "4") demoStore 4 5 (by decide) (by decide)
      (by decide) (by decide),
    by decide, by decide, by decide, by decide, by decide, by decide⟩

/-- C1 amended-theorem witness: at a concrete header-and-body input, the
register route behaves exactly as the bare controller and does not answer
401 or 403. -/
theorem registerRoute_has_no_guard_witness :
    registerRoute hashDemo 2 (some "Bearer staff-token")
        { name := some "Bob", email := some "bob@example.com",
          password := some "pw" } usersDemo
      = registerUser hashDemo 2
        { name := some "Bob", email := some "bob@example.com",
          password := some "pw" } usersDemo ∧
    (registerRoute hashDemo 2 (some "Bearer staff-token")
        { name := some "Bob", email := some "bob@example.com",
          password := some "pw" } usersDemo).status ≠ 401 ∧
    (registerRoute hashDemo 2 (some "Bearer staff-token")
        { name := some "Bob", email := some "bob@example.com",
          password := some "pw" } usersDemo).status ≠ 403 :=
  registerRoute_has_no_guard hashDemo 2 (some "Bearer staff-token")
    { name := some "Bob", email := some "bob@example.com",
      password := some "pw" } usersDemo
